import Mathlib

/-!
Shallow embedding of the api_yamdb repository (a Django REST API for
reviewing titles) together with proofs about its behaviour.

The embedding follows the source files:

* `users/models.py` (the `CustomUser` model and its role predicates),
* `users/validators.py` (`validate_username`),
* `api/v1/permissions.py` (`IsAdminOrReadOnly`),
* `api/v1/serializers.py` (`SignUpSerializer`, `TokenObtainSerializer`,
  `ReviewSerializer`, `TitleReadSerializer`, `RATING_VALUES`),
* `api/v1/views.py` (`signup`, `token`, `TitleViewSet.queryset`,
  `ReviewViewSet`),
* `reviews/models.py` (`Review`, `Comment`, `Title`, `Category` and their
  `Meta` options: ordering and the `unique_review` constraint).

Database tables are lists of records; Django ORM calls (`filter(...).first()`,
`filter(...).exists()`, `get_or_create`, `annotate(Avg(...))`, `on_delete`
behaviour, default `Meta.ordering`) are translated to explicit list
operations with the semantics documented for each definition.
-/

namespace ApiYamdb

/-! ### users/models.py -/

/-- Role choices of `CustomUser.USERS`: `user`, `moderator`, `admin`. -/
inductive Role
  | user
  | moderator
  | admin
  deriving DecidableEq, Repr

/-- Embedding of the `CustomUser` model (`users/models.py`).  `id` is the
database primary key; `is_superuser` is inherited from `AbstractUser`. -/
structure CustomUser where
  id : Nat
  username : String
  email : String
  role : Role
  is_superuser : Bool
  deriving DecidableEq, Repr

/-- `CustomUser.is_admin`: `self.role == self.ADMIN or self.is_superuser`. -/
def CustomUser.is_admin (u : CustomUser) : Bool :=
  u.role == Role.admin || u.is_superuser

/-- `CustomUser.is_moderator`: `self.role == self.MODERATOR`. -/
def CustomUser.is_moderator (u : CustomUser) : Bool :=
  u.role == Role.moderator

/-! ### HTTP requests and rest_framework permissions -/

/-- HTTP methods that reach the application views. -/
inductive HttpMethod
  | get
  | head
  | options
  | post
  | put
  | patch
  | delete
  deriving DecidableEq, Repr

/-- `rest_framework.permissions.SAFE_METHODS = ('GET', 'HEAD', 'OPTIONS')`. -/
def SAFE_METHODS : List HttpMethod :=
  [HttpMethod.get, HttpMethod.head, HttpMethod.options]

/-- A request as seen by a permission class: its method and its user.
`user = none` models an anonymous request (Django's `AnonymousUser`,
for which `is_authenticated` is `False`). -/
structure Request where
  method : HttpMethod
  user : Option CustomUser
  deriving DecidableEq, Repr

/-- `request.user.is_authenticated`: true exactly for non-anonymous users. -/
def Request.is_authenticated (r : Request) : Bool :=
  r.user.isSome

/-- The role test `request.user.is_admin()` as evaluated on a request.
An anonymous request never reaches this call in the source (the
`is_authenticated` conjunct short-circuits first); mapping it to `false`
preserves the value of the conjunction. -/
def Request.userIsAdmin (r : Request) : Bool :=
  match r.user with
  | some u => u.is_admin
  | none => false

/-- `IsAdminOrReadOnly.has_permission` (`api/v1/permissions.py`):
safe methods are allowed for everyone, other methods only for
authenticated users with `is_admin()`. -/
def IsAdminOrReadOnly_has_permission (r : Request) : Bool :=
  if r.method ∈ SAFE_METHODS then
    true
  else
    r.is_authenticated && r.userIsAdmin

/-! ### users/validators.py and the serializer field checks -/

/-- `FORBIDDEN_NICKNAMES = [FORBIDDEN_ME]` with `FORBIDDEN_ME = 'me'`. -/
def FORBIDDEN_NICKNAMES : List String := ["me"]

/-- Python's `str.lower()`: lower-case every character.  (Defined through
the character list so that it evaluates by kernel reduction.) -/
def pyLower (s : String) : String :=
  String.mk (s.toList.map Char.toLower)

/-- `validate_username` (`users/validators.py`): the value passes iff its
lower-cased form is not a forbidden nickname (the source raises
`ValidationError` exactly when `value.lower() in FORBIDDEN_NICKNAMES`). -/
def validate_username (value : String) : Bool :=
  !(FORBIDDEN_NICKNAMES.contains (pyLower value))

/-- `MAX_LENGTH_USERNAME = 150` (`users/models.py`, username field). -/
def MAX_LENGTH_USERNAME : Nat := 150

/-- `MAX_EMAIL_LENGTH = 254` (settings, email field of `CustomUser`). -/
def MAX_EMAIL_LENGTH : Nat := 254

/-- `MAX_LENGTH_CODE = 100` (`api/v1/serializers.py`). -/
def MAX_LENGTH_CODE : Nat := 100

/-- One character of Django's `UnicodeUsernameValidator` character class
`[\w.@+-]` (letters, digits, underscore and the punctuation `.@+-`). -/
def usernameCharOk (c : Char) : Bool :=
  c.isAlphanum || c = '_' || c = '.' || c = '@' || c = '+' || c = '-'

/-- Django's `UnicodeUsernameValidator`: the username is non-empty and all
its characters are drawn from `[\w.@+-]`. -/
def unicodeUsernameOk (s : String) : Bool :=
  !s.isEmpty && s.toList.all usernameCharOk

/-- Field-level validation of the `username` field of `SignUpSerializer`
and `TokenObtainSerializer`: a `CharField` with `max_length =
MAX_LENGTH_USERNAME` and validators `UnicodeUsernameValidator()` and
`validate_username`. -/
def usernameFieldOk (s : String) : Bool :=
  decide (s.length ≤ MAX_LENGTH_USERNAME) && unicodeUsernameOk s &&
    validate_username s

/-- Field-level validation of the `email` field of `SignUpSerializer`:
an `EmailField` with `max_length = MAX_EMAIL_LENGTH`.  The full RFC
address grammar of Django's `EmailValidator` is abstracted to the checks
the claims depend on: non-empty, within the length bound, and containing
an `@`. -/
def emailFieldOk (e : String) : Bool :=
  !e.isEmpty && decide (e.length ≤ MAX_EMAIL_LENGTH) && e.toList.contains '@'

/-! ### The user table and SignUpSerializer.validate -/

/-- The `users` table. -/
structure UserDb where
  users : List CustomUser
  deriving DecidableEq, Repr

/-- `User.objects.filter(email=email).first()`. -/
def findByEmail (db : UserDb) (email : String) : Option CustomUser :=
  db.users.find? fun u => u.email == email

/-- `User.objects.filter(username=username).first()`. -/
def findByUsername (db : UserDb) (username : String) : Option CustomUser :=
  db.users.find? fun u => u.username == username

/-- Python equality on `Optional[User]` values: Django model instances
compare equal iff they have the same primary key, and `None` is equal
only to `None`. -/
def optPk (u : Option CustomUser) : Option Nat :=
  u.map CustomUser.id

/-- `ERROR_EMAIL` message constant of `api/v1/serializers.py` (the source
text is Russian; rendered here in English). -/
def ERROR_EMAIL : String := "user with this email already exists"

/-- `ERROR_USERNAME` message constant of `api/v1/serializers.py` (the
source text is Russian; rendered here in English). -/
def ERROR_USERNAME : String := "user with this username already exists"

/-- `SignUpSerializer.validate` (`api/v1/serializers.py`): fetch the user
holding the email and the user holding the username; if they differ
(as Python objects, i.e. by primary key), raise a `ValidationError`
whose message dict has an `email` key when the email is taken and a
`username` key when the username is taken. -/
def SignUpSerializer_validate (db : UserDb) (username email : String) :
    Except (List (String × String)) Unit :=
  let email_user := findByEmail db email
  let username_user := findByUsername db username
  if optPk email_user = optPk username_user then
    Except.ok ()
  else
    Except.error
      ((if email_user.isSome then [("email", ERROR_EMAIL)] else []) ++
        (if username_user.isSome then [("username", ERROR_USERNAME)] else []))

/-! ### The signup view (`api/v1/views.py`) -/

/-- A signup request body: `username` and `email`. -/
structure SignUpRequest where
  username : String
  email : String
  deriving DecidableEq, Repr

/-- Field errors collected by `SignUpSerializer.is_valid` before
`validate` runs. -/
def signupFieldErrors (r : SignUpRequest) : List (String × String) :=
  (if usernameFieldOk r.username then [] else [("username", "invalid")]) ++
    (if emailFieldOk r.email then [] else [("email", "invalid")])

/-- Both serializer fields pass their validators. -/
def signupFieldsOk (r : SignUpRequest) : Bool :=
  usernameFieldOk r.username && emailFieldOk r.email

/-- A fresh primary key for an insert: one past the largest key in use. -/
def freshPk (db : UserDb) : Nat :=
  (db.users.map CustomUser.id).foldr max 0 + 1

/-- `User.objects.get_or_create(username=..., email=...)`: return the
first row matching both fields, or insert a new row (with the `user`
role and no superuser flag, the model defaults) and return it. -/
def get_or_create (db : UserDb) (username email : String) :
    CustomUser × UserDb :=
  match db.users.find? fun u => u.username == username && u.email == email with
  | some u => (u, db)
  | none =>
      let u : CustomUser :=
        { id := freshPk db, username := username, email := email,
          role := Role.user, is_superuser := false }
      (u, { users := db.users ++ [u] })

/-- Outcome of the signup endpoint: a 400 with field-keyed errors, or a
200 after a confirmation code was emailed to the recorded address. -/
inductive SignupOutcome
  | badRequest (errors : List (String × String))
  | ok (emailedTo : String)
  deriving DecidableEq, Repr

/-- The `signup` view (`api/v1/views.py`): run `SignUpSerializer`
validation (field validators, then `validate`); on failure answer 400
and leave the database untouched; on success `get_or_create` the user,
make a confirmation token and email it to `user.email`. -/
def signup (db : UserDb) (req : SignUpRequest) : SignupOutcome × UserDb :=
  if signupFieldsOk req then
    match SignUpSerializer_validate db req.username req.email with
    | Except.error errs => (SignupOutcome.badRequest errs, db)
    | Except.ok _ =>
        let r := get_or_create db req.username req.email
        (SignupOutcome.ok r.1.email, r.2)
  else
    (SignupOutcome.badRequest (signupFieldErrors req), db)

/-! ### The token view (`api/v1/views.py`) -/

/-- A token-exchange request body: `username` and `confirmation_code`. -/
structure TokenRequest where
  username : String
  confirmation_code : String
  deriving DecidableEq, Repr

/-- Field-level validation of `TokenObtainSerializer`: the username field
as in `SignUpSerializer`, and `confirmation_code` a required `CharField`
with `max_length = MAX_LENGTH_CODE`. -/
def tokenFieldsOk (r : TokenRequest) : Bool :=
  usernameFieldOk r.username &&
    (!r.confirmation_code.isEmpty &&
      decide (r.confirmation_code.length ≤ MAX_LENGTH_CODE))

/-- Outcome of the token endpoint.  `typeError` models an uncaught Python
`TypeError`, which rest_framework does not translate and which therefore
surfaces as an HTTP 500. -/
inductive TokenOutcome
  | badRequest (field : String)
  | notFound
  | token (userPk : Nat)
  | typeError (msg : String)
  deriving DecidableEq, Repr

/-- The `token` view (`api/v1/views.py`).  After serializer validation the
source executes `get_object_or_404(username=request.data['username'])`.
`django.shortcuts.get_object_or_404(klass, *args, **kwargs)` requires the
model or queryset as its first positional argument; the call supplies
only a keyword argument, so Python raises `TypeError:
get_object_or_404() missing 1 required positional argument: 'klass'`
before any user lookup.  The subsequent
`default_token_generator.check_token` and `AccessToken.for_user` lines
are unreachable, so they need no model of their own. -/
def token (db : UserDb) (req : TokenRequest) : TokenOutcome :=
  if tokenFieldsOk req then
    let _ := db
    TokenOutcome.typeError
      "get_object_or_404 missing 1 required positional argument: klass"
  else
    TokenOutcome.badRequest "invalid"

/-! ### reviews/models.py: the Review table and its operations -/

/-- Embedding of the `Review` model: primary key, author and title
foreign keys (stored as primary keys), score, text and publication
date (`auto_now_add`, modelled as a supplied timestamp). -/
structure Review where
  id : Nat
  author : Nat
  title : Nat
  score : Int
  text : String
  pub_date : Nat
  deriving DecidableEq, Repr

/-- The `reviews` table. -/
structure ReviewDb where
  reviews : List Review
  deriving DecidableEq, Repr

/-- `RATING_VALUES = [(i, str(i)) for i in range(1, 11)]`
(`api/v1/serializers.py`): the accepted keys of the score
`ChoiceField`, the integers 1 through 10. -/
def RATING_VALUES : List Int :=
  [1, 2, 3, 4, 5, 6, 7, 8, 9, 10]

/-- `ChoiceField(choices=RATING_VALUES)` accepts a submitted score iff it
is one of the choice keys. -/
def scoreChoiceOk (s : Int) : Bool :=
  RATING_VALUES.contains s

/-- `Review.objects.filter(author=author, title__id=title_id).exists()`. -/
def hasReview (db : ReviewDb) (author title : Nat) : Bool :=
  db.reviews.any fun r => r.author == author && r.title == title

/-- Validation-style API errors (HTTP 400) versus database integrity
errors raised by a violated unique constraint. -/
inductive ApiError
  | validation (msg : String)
  | integrity (msg : String)
  deriving DecidableEq, Repr

/-- `ReviewSerializer.validate` (`api/v1/serializers.py`): on a POST,
reject when a review by this author for this title already exists
(the source message is Russian: the review already exists).  Other
methods skip the check. -/
def ReviewSerializer_validate (db : ReviewDb) (method : HttpMethod)
    (author title : Nat) : Except ApiError Unit :=
  if method == HttpMethod.post then
    if hasReview db author title then
      Except.error (ApiError.validation "duplicate review")
    else
      Except.ok ()
  else
    Except.ok ()

/-- Row insertion guarded by the `unique_review` constraint
(`Review.Meta.constraints`, `reviews/models.py`): a row whose
`(author, title)` pair is already present violates the
`UniqueConstraint` and the database raises an integrity error. -/
def insertReview (db : ReviewDb) (r : Review) : Except ApiError ReviewDb :=
  if hasReview db r.author r.title then
    Except.error (ApiError.integrity "unique_review")
  else
    Except.ok { reviews := db.reviews ++ [r] }

/-- A fresh primary key for a review insert. -/
def freshReviewPk (db : ReviewDb) : Nat :=
  (db.reviews.map Review.id).foldr max 0 + 1

/-- The POST path of `ReviewViewSet` for a given title: serializer field
validation (the score `ChoiceField`), then `ReviewSerializer.validate`,
then `perform_create`, which saves the row with the requesting user as
author and the path-derived title, subject to the unique constraint. -/
def createReview (db : ReviewDb) (author title : Nat) (score : Int)
    (text : String) (now : Nat) : Except ApiError ReviewDb :=
  if scoreChoiceOk score then
    match ReviewSerializer_validate db HttpMethod.post author title with
    | Except.error e => Except.error e
    | Except.ok _ =>
        insertReview db
          { id := freshReviewPk db, author := author, title := title,
            score := score, text := text, pub_date := now }
  else
    Except.error (ApiError.validation "score is not a valid choice")

/-- The PATCH path of `ReviewViewSet` for an existing review: `author`
and `title` are read-only serializer fields, so only `text` and `score`
change; the score passes the same `ChoiceField`;
`ReviewSerializer.validate` skips the duplicate check because the
method is not POST. -/
def updateReview (db : ReviewDb) (rid : Nat) (score : Int) (text : String) :
    Except ApiError ReviewDb :=
  if scoreChoiceOk score then
    match ReviewSerializer_validate db HttpMethod.patch 0 0 with
    | Except.error e => Except.error e
    | Except.ok _ =>
        Except.ok
          { reviews :=
              db.reviews.map fun r =>
                if r.id == rid then { r with score := score, text := text }
                else r }
  else
    Except.error (ApiError.validation "score is not a valid choice")

/-- The DELETE path of `ReviewViewSet`: remove the row. -/
def deleteReview (db : ReviewDb) (rid : Nat) : ReviewDb :=
  { reviews := db.reviews.filter fun r => !(r.id == rid) }

/-- The write operations the review endpoints expose. -/
inductive ReviewOp
  | post (author title : Nat) (score : Int) (text : String) (now : Nat)
  | patch (rid : Nat) (score : Int) (text : String)
  | del (rid : Nat)
  deriving DecidableEq, Repr

/-- One API call: failed calls (validation or integrity errors) leave the
database unchanged. -/
def applyOp (db : ReviewDb) (op : ReviewOp) : ReviewDb :=
  match op with
  | ReviewOp.post a t s txt now =>
      match createReview db a t s txt now with
      | Except.ok db2 => db2
      | Except.error _ => db
  | ReviewOp.patch rid s txt =>
      match updateReview db rid s txt with
      | Except.ok db2 => db2
      | Except.error _ => db
  | ReviewOp.del rid => deleteReview db rid

/-- Run a sequence of review operations from a state. -/
def runOps (db : ReviewDb) (ops : List ReviewOp) : ReviewDb :=
  ops.foldl applyOp db

/-- The one-review-per-user-per-title invariant: no two rows of the
table share their `(author, title)` pair. -/
def uniquePerAuthorTitle (db : ReviewDb) : Prop :=
  db.reviews.Pairwise fun r1 r2 => ¬(r1.author = r2.author ∧ r1.title = r2.title)

/-! ### The rating annotation of TitleViewSet and its serialization -/

/-- `Title.objects.annotate(rating=Avg('reviews__score'))`
(`api/v1/views.py`): SQL `AVG` over the scores of the reviews of the
title; `NULL` (here `none`) when the title has no reviews, the exact
rational mean otherwise. -/
def avgScore (scores : List Int) : Option ℚ :=
  if scores.isEmpty then none
  else some ((scores.sum : ℚ) / (scores.length : ℚ))

/-- Python's `int(...)` applied to a rational: truncation toward zero,
`q.num` T-divided by `q.den`. -/
def pythonInt (q : ℚ) : Int :=
  q.num.tdiv (q.den : Int)

/-- The `rating = serializers.IntegerField(read_only=True, default=None)`
field of `TitleReadSerializer` (`api/v1/serializers.py`): a `None`
attribute serializes to `null`; any other value passes through
`IntegerField.to_representation`, which is `int(value)`. -/
def ratingField (v : Option ℚ) : Option Int :=
  v.map pythonInt

/-- The `rating` entry of a serialized Title, as a function of the scores
of the reviews associated with the title: the annotation followed by
the serializer field. -/
def titleRating (scores : List Int) : Option Int :=
  ratingField (avgScore scores)

/-! ### reviews/models.py: Category deletion and Title (C7) -/

/-- Embedding of the `Title` model fields relevant to category deletion:
`category` is a nullable foreign key (stored as an optional primary
key), `genre` the many-to-many genre keys. -/
structure TitleRec where
  id : Nat
  name : String
  year : Int
  description : String
  genre : List Nat
  category : Option Nat
  deriving DecidableEq, Repr

/-- Embedding of the `Category` model. -/
structure CategoryRec where
  id : Nat
  name : String
  slug : String
  deriving DecidableEq, Repr

/-- The catalog tables. -/
structure CatalogDb where
  categories : List CategoryRec
  titles : List TitleRec
  deriving DecidableEq, Repr

/-- Deleting a category: the row leaves the `categories` table and, per
`on_delete=models.SET_NULL` on `Title.category` (`reviews/models.py`),
every title referencing it has its `category` column set to `NULL`;
titles are otherwise untouched. -/
def deleteCategory (db : CatalogDb) (c : Nat) : CatalogDb :=
  { categories := db.categories.filter fun k => !(k.id == c),
    titles :=
      db.titles.map fun t =>
        if t.category = some c then { t with category := none } else t }

/-! ### Default ordering of Review and Comment queries (C10) -/

/-- The columns of a review that its `Meta.ordering` can reach. -/
structure ReviewRow where
  id : Nat
  title : Nat
  pub_date : Nat
  deriving DecidableEq, Repr

/-- The columns of a comment that its `Meta.ordering` can reach. -/
structure CommentRow where
  id : Nat
  review : Nat
  pub_date : Nat
  deriving DecidableEq, Repr

/-- Lexicographic comparison of ordering keys, each key a list of column
values compared left to right (the SQL `ORDER BY` order). -/
def keyLe : List Nat → List Nat → Bool
  | [], _ => true
  | _ :: _, [] => false
  | a :: as, b :: bs => Nat.blt a b || (a == b && keyLe as bs)

/-- The ordering key of `Review.Meta.ordering = ('pub_date', 'title')`
(`reviews/models.py`).  `title` is a foreign key whose target model
declares no `Meta.ordering`, so Django orders by the title's primary
key, i.e. by the stored `title_id` column. -/
def reviewOrderKey (r : ReviewRow) : List Nat :=
  [r.pub_date, r.title]

/-- Look up a review row by primary key (comments always reference an
existing review; a dangling reference contributes a zero key). -/
def findReviewRow (reviews : List ReviewRow) (pk : Nat) : ReviewRow :=
  match reviews.find? fun r => r.id == pk with
  | some r => r
  | none => { id := pk, title := 0, pub_date := 0 }

/-- The ordering key of `Comment.Meta.ordering = ('pub_date', 'review')`
(`reviews/models.py`).  `review` is a foreign key and `Review` declares
its own `Meta.ordering`, so Django substitutes that ordering for the
relation: the comparison continues with the referenced review's
`pub_date` and then its `title_id`. -/
def commentOrderKey (reviews : List ReviewRow) (c : CommentRow) : List Nat :=
  c.pub_date :: reviewOrderKey (findReviewRow reviews c.review)

/-- The comment ordering the claim asserts: publication date, ties broken
by the raw `review_id` column.  Stated from the claim's words, for
comparison with `commentOrderKey`, which is derived from the source and
Django's documented foreign-key ordering rule. -/
def claimedCommentOrderKey (c : CommentRow) : List Nat :=
  [c.pub_date, c.review]

/-- The order relation induced on review rows by their default ordering. -/
def reviewOrdLe (r1 r2 : ReviewRow) : Prop :=
  keyLe (reviewOrderKey r1) (reviewOrderKey r2) = true

/-- The order relation induced on comment rows by their default ordering
under Django's semantics. -/
def commentOrdLe (reviews : List ReviewRow) (c1 c2 : CommentRow) : Prop :=
  keyLe (commentOrderKey reviews c1) (commentOrderKey reviews c2) = true

/-- The order relation on comment rows that the claim asserts. -/
def claimedCommentOrdLe (c1 c2 : CommentRow) : Prop :=
  keyLe (claimedCommentOrderKey c1) (claimedCommentOrderKey c2) = true

instance : DecidableRel reviewOrdLe := fun r1 r2 => by
  unfold reviewOrdLe; infer_instance

instance (reviews : List ReviewRow) : DecidableRel (commentOrdLe reviews) :=
  fun c1 c2 => by unfold commentOrdLe; infer_instance

instance : DecidableRel claimedCommentOrdLe := fun c1 c2 => by
  unfold claimedCommentOrdLe; infer_instance

/-- A `SELECT` on the review table: rows in the default model ordering
(`List.insertionSort` realizes the `ORDER BY`). -/
def listReviews (reviews : List ReviewRow) : List ReviewRow :=
  reviews.insertionSort reviewOrdLe

/-- A `SELECT` on the comment table under Django's ordering semantics. -/
def listComments (reviews : List ReviewRow) (comments : List CommentRow) :
    List CommentRow :=
  comments.insertionSort (commentOrdLe reviews)

/-- A `SELECT` on the comment table under the ordering the claim
asserts. -/
def listCommentsClaimed (comments : List CommentRow) : List CommentRow :=
  comments.insertionSort claimedCommentOrdLe

/-! ### Example rows used by concrete witnesses -/

/-- A one-user table: the account "alice". -/
def exampleUserDb : UserDb :=
  { users := [{ id := 1, username := "alice", email := "alice@example.com",
                role := Role.user, is_superuser := false }] }

/-- A one-review table: user 7 already reviewed title 3. -/
def exampleReviewDb : ReviewDb :=
  { reviews := [{ id := 1, author := 7, title := 3, score := 5,
                  text := "fine", pub_date := 2 }] }

/-- A second review row by the same author for the same title. -/
def exampleDupReview : Review :=
  { id := 2, author := 7, title := 3, score := 6, text := "again",
    pub_date := 4 }

/-! ### Theorems -/

/-- C6: `IsAdminOrReadOnly.has_permission` grants access iff the method is
a safe (read) method — in which case anyone, including anonymous users,
is allowed — or the requester is an authenticated user whose role is
admin or who is a superuser. -/
theorem C6_catalog_write_is_admin_only (r : Request) :
    IsAdminOrReadOnly_has_permission r = true ↔
      r.method ∈ SAFE_METHODS ∨
        ∃ u, r.user = some u ∧
          (u.role = Role.admin ∨ u.is_superuser = true) := by
  unfold IsAdminOrReadOnly_has_permission
  by_cases h : r.method ∈ SAFE_METHODS
  · simp [h]
  · cases hu : r.user with
    | none =>
        simp [h, Request.is_authenticated, Request.userIsAdmin, hu]
    | some u =>
        simp [h, Request.is_authenticated, Request.userIsAdmin, hu,
          CustomUser.is_admin]

/-- C8: a signup request whose username is `"me"` is rejected with a
validation error whatever the email is, and the user table is
unchanged. -/
theorem C8_signup_me_forbidden (db : UserDb) (email : String) :
    (signup db { username := "me", email := email }).2 = db ∧
      ∃ errs,
        (signup db { username := "me", email := email }).1 =
          SignupOutcome.badRequest errs := by
  have hm : usernameFieldOk "me" = false := by decide
  simp [signup, signupFieldsOk, hm]

/-- C4: a review score outside 1..10 (in particular 11) is rejected by
`createReview` with the choice-field validation error, and every score
from 1 to 10 (in particular 10) passes the score field validation. -/
theorem C4_score_range (db : ReviewDb) (a t : Nat) (txt : String)
    (now : Nat) (s : Int) :
    (¬(1 ≤ s ∧ s ≤ 10) →
      createReview db a t s txt now =
        Except.error (ApiError.validation "score is not a valid choice")) ∧
      ((1 ≤ s ∧ s ≤ 10) → scoreChoiceOk s = true) := by
  have hiff : scoreChoiceOk s = true ↔ 1 ≤ s ∧ s ≤ 10 := by
    simp only [scoreChoiceOk, RATING_VALUES, List.contains_eq_any_beq,
      List.any_cons, List.any_nil, Bool.or_eq_true, beq_iff_eq,
      Bool.false_eq_true, or_false]
    omega
  constructor
  · intro hout
    have hsc : scoreChoiceOk s = false := by
      cases hb : scoreChoiceOk s
      · rfl
      · exact absurd (hiff.mp hb) hout
    simp [createReview, hsc]
  · exact fun hin => hiff.mpr hin

/-- Witness for C4 at the concrete scores 11 and 10. -/
theorem C4_score_range_witness :
    createReview { reviews := [] } 1 1 11 "x" 0 =
        Except.error (ApiError.validation "score is not a valid choice") ∧
      scoreChoiceOk 10 = true :=
  ⟨(C4_score_range { reviews := [] } 1 1 "x" 0 11).1 (by decide),
    (C4_score_range { reviews := [] } 1 1 "x" 0 10).2 (by decide)⟩

/-- The existence pre-check, read as a statement about rows. -/
theorem hasReview_eq_false_iff {db : ReviewDb} {a t : Nat} :
    hasReview db a t = false ↔
      ∀ r ∈ db.reviews, ¬(r.author = a ∧ r.title = t) := by
  simp [hasReview, List.any_eq_false, Bool.and_eq_true, beq_iff_eq, not_and]

/-- A successful review POST implies the pre-check passed and appends
exactly the new row. -/
theorem createReview_ok {db db2 : ReviewDb} {a t : Nat} {s : Int}
    {txt : String} {now : Nat}
    (h : createReview db a t s txt now = Except.ok db2) :
    hasReview db a t = false ∧
      db2.reviews = db.reviews ++
        [{ id := freshReviewPk db, author := a, title := t, score := s,
           text := txt, pub_date := now }] := by
  by_cases hsc : scoreChoiceOk s
  · by_cases hex : hasReview db a t
    · simp [createReview, ReviewSerializer_validate, hsc, hex] at h
    · simp only [Bool.not_eq_true] at hex
      refine ⟨hex, ?_⟩
      simp [createReview, ReviewSerializer_validate, insertReview, hsc,
        hex] at h
      rw [← h]
  · simp [createReview, hsc] at h

/-- A successful review PATCH rewrites rows in place, leaving `author`
and `title` untouched. -/
theorem updateReview_ok {db db2 : ReviewDb} {rid : Nat} {s : Int}
    {txt : String} (h : updateReview db rid s txt = Except.ok db2) :
    db2.reviews =
      db.reviews.map fun r =>
        if r.id == rid then { r with score := s, text := txt } else r := by
  by_cases hsc : scoreChoiceOk s
  · simp [updateReview, ReviewSerializer_validate, hsc] at h
    rw [← h]
    simp only [beq_iff_eq]
  · simp [updateReview, hsc] at h

/-- A successful POST preserves the uniqueness invariant. -/
theorem uniquePreserved_create {db db2 : ReviewDb} {a t : Nat} {s : Int}
    {txt : String} {now : Nat} (hinv : uniquePerAuthorTitle db)
    (h : createReview db a t s txt now = Except.ok db2) :
    uniquePerAuthorTitle db2 := by
  obtain ⟨hex, hrev⟩ := createReview_ok h
  unfold uniquePerAuthorTitle at hinv ⊢
  rw [hrev, List.pairwise_append]
  refine ⟨hinv, by simp, ?_⟩
  intro x hx y hy
  simp only [List.mem_singleton] at hy
  subst hy
  exact hasReview_eq_false_iff.mp hex x hx

/-- A successful PATCH preserves the uniqueness invariant. -/
theorem uniquePreserved_update {db db2 : ReviewDb} {rid : Nat} {s : Int}
    {txt : String} (hinv : uniquePerAuthorTitle db)
    (h : updateReview db rid s txt = Except.ok db2) :
    uniquePerAuthorTitle db2 := by
  have hrev := updateReview_ok h
  have hau : ∀ r : Review,
      ((if r.id == rid then { r with score := s, text := txt } else r) :
        Review).author = r.author := by
    intro r; split <;> rfl
  have hti : ∀ r : Review,
      ((if r.id == rid then { r with score := s, text := txt } else r) :
        Review).title = r.title := by
    intro r; split <;> rfl
  unfold uniquePerAuthorTitle at hinv ⊢
  rw [hrev, List.pairwise_map]
  refine hinv.imp fun {x y} hxy => ?_
  simpa only [hau, hti] using hxy

/-- A DELETE preserves the uniqueness invariant. -/
theorem uniquePreserved_delete {db : ReviewDb} {rid : Nat}
    (hinv : uniquePerAuthorTitle db) :
    uniquePerAuthorTitle (deleteReview db rid) :=
  hinv.filter _

/-- Any single API call preserves the uniqueness invariant. -/
theorem uniquePreserved_applyOp (db : ReviewDb) (op : ReviewOp)
    (hinv : uniquePerAuthorTitle db) : uniquePerAuthorTitle (applyOp db op) := by
  cases op with
  | post a t s txt now =>
      cases h : createReview db a t s txt now with
      | ok db2 =>
          have happ : applyOp db (ReviewOp.post a t s txt now) = db2 := by
            simp [applyOp, h]
          rw [happ]
          exact uniquePreserved_create hinv h
      | error e =>
          have happ : applyOp db (ReviewOp.post a t s txt now) = db := by
            simp [applyOp, h]
          rw [happ]
          exact hinv
  | patch rid s txt =>
      cases h : updateReview db rid s txt with
      | ok db2 =>
          have happ : applyOp db (ReviewOp.patch rid s txt) = db2 := by
            simp [applyOp, h]
          rw [happ]
          exact uniquePreserved_update hinv h
      | error e =>
          have happ : applyOp db (ReviewOp.patch rid s txt) = db := by
            simp [applyOp, h]
          rw [happ]
          exact hinv
  | del rid => exact uniquePreserved_delete hinv

/-- Any sequence of API calls preserves the uniqueness invariant. -/
theorem uniquePreserved_runOps (ops : List ReviewOp) :
    ∀ db : ReviewDb, uniquePerAuthorTitle db →
      uniquePerAuthorTitle (runOps db ops) := by
  induction ops with
  | nil => exact fun db h => h
  | cons op rest ih =>
      intro db h
      have hstep := uniquePreserved_applyOp db op h
      simpa [runOps, List.foldl] using ih (applyOp db op) hstep

/-- C1: starting from an empty table, every sequence of review operations
leaves at most one review per author per title; a POST duplicating an
existing `(author, title)` pair is rejected with a validation error by
the pre-save existence check; and the row-level `unique_review`
constraint independently rejects a duplicating insert. -/
theorem C1_one_review_per_user_per_title :
    (∀ ops : List ReviewOp,
      uniquePerAuthorTitle (runOps { reviews := [] } ops)) ∧
      (∀ (db : ReviewDb) (a t : Nat) (s : Int) (txt : String) (now : Nat),
        hasReview db a t = true →
          ∃ msg, createReview db a t s txt now =
            Except.error (ApiError.validation msg)) ∧
      (∀ (db : ReviewDb) (r : Review), hasReview db r.author r.title = true →
        insertReview db r = Except.error (ApiError.integrity "unique_review")) := by
  refine ⟨fun ops => uniquePreserved_runOps ops _ (by simp [uniquePerAuthorTitle]),
    ?_, ?_⟩
  · intro db a t s txt now hex
    by_cases hsc : scoreChoiceOk s
    · exact ⟨"duplicate review",
        by simp [createReview, ReviewSerializer_validate, hsc, hex]⟩
    · exact ⟨"score is not a valid choice", by simp [createReview, hsc]⟩
  · intro db r hex
    simp [insertReview, hex]

/-- Witness for C1: with the one-review example table, a second POST by
user 7 for title 3 fails validation, and a direct duplicate insert
violates the unique constraint. -/
theorem C1_one_review_per_user_per_title_witness :
    (∃ msg, createReview exampleReviewDb 7 3 6 "again" 4 =
      Except.error (ApiError.validation msg)) ∧
      insertReview exampleReviewDb exampleDupReview =
        Except.error (ApiError.integrity "unique_review") :=
  ⟨C1_one_review_per_user_per_title.2.1 exampleReviewDb 7 3 6 "again" 4
      (by decide),
    C1_one_review_per_user_per_title.2.2 exampleReviewDb exampleDupReview
      (by decide)⟩

/-- C2 (evaluating the code at the failing input): a well-formed token
request for the existing user "alice" does not produce a token, a
not-found, or a confirmation-code validation failure — the view dies
with the `TypeError` of the mis-called `get_object_or_404`. -/
theorem C2_token_raises_type_error :
    token exampleUserDb { username := "alice", confirmation_code := "abc123" } =
        TokenOutcome.typeError
          "get_object_or_404 missing 1 required positional argument: klass" ∧
      (∀ pk, token exampleUserDb
          { username := "alice", confirmation_code := "abc123" } ≠
            TokenOutcome.token pk) ∧
      token exampleUserDb { username := "alice", confirmation_code := "abc123" } ≠
        TokenOutcome.notFound := by
  have h : token exampleUserDb
      { username := "alice", confirmation_code := "abc123" } =
        TokenOutcome.typeError
          "get_object_or_404 missing 1 required positional argument: klass" := by
    decide
  exact ⟨h, fun pk => by simp [h], by simp [h]⟩

/-- C3: with well-formed fields, signup (i) rejects and changes nothing
when the accounts found by email and by username differ, (ii) reuses
the account and emails its address when both lookups return the same
account, and (iii) creates exactly one new account with the requested
username and email when neither lookup finds one. -/
theorem C3_signup_outcomes (db : UserDb) (req : SignUpRequest)
    (hf : signupFieldsOk req = true) :
    (optPk (findByEmail db req.email) ≠ optPk (findByUsername db req.username) →
      (signup db req).2 = db ∧
        ∃ errs, (signup db req).1 = SignupOutcome.badRequest errs) ∧
      (∀ u : CustomUser, findByEmail db req.email = some u →
        findByUsername db req.username = some u →
          (signup db req).2 = db ∧
            (signup db req).1 = SignupOutcome.ok req.email) ∧
      (findByEmail db req.email = none → findByUsername db req.username = none →
        (signup db req).1 = SignupOutcome.ok req.email ∧
          ∃ u : CustomUser, (signup db req).2.users = db.users ++ [u] ∧
            u.username = req.username ∧ u.email = req.email) := by
  refine ⟨?_, ?_, ?_⟩
  · intro hne
    have hv : SignUpSerializer_validate db req.username req.email =
        Except.error
          ((if (findByEmail db req.email).isSome then [("email", ERROR_EMAIL)]
            else []) ++
            (if (findByUsername db req.username).isSome then
              [("username", ERROR_USERNAME)] else [])) := by
      simp [SignUpSerializer_validate, hne]
    simp [signup, hf, hv]
  · intro u hu1 hu2
    have hu1' : db.users.find? (fun x => x.email == req.email) = some u := hu1
    have hu2' : db.users.find? (fun x => x.username == req.username) = some u :=
      hu2
    have hv : SignUpSerializer_validate db req.username req.email =
        Except.ok () := by
      simp [SignUpSerializer_validate, hu1, hu2]
    have hmem : u ∈ db.users := List.mem_of_find?_eq_some hu1'
    have he := List.find?_some hu1'
    have hn := List.find?_some hu2'
    have hex : (db.users.find? fun x =>
        x.username == req.username && x.email == req.email).isSome := by
      rw [List.find?_isSome]
      exact ⟨u, hmem, by simp [hn, he]⟩
    obtain ⟨v, hfv⟩ := Option.isSome_iff_exists.mp hex
    have hveq := List.find?_some hfv
    have hve : v.email = req.email :=
      eq_of_beq ((Bool.and_eq_true _ _).mp hveq).2
    have hgc : get_or_create db req.username req.email = (v, db) := by
      simp [get_or_create, hfv]
    simp [signup, hf, hv, hgc, hve]
  · intro hu1 hu2
    have hu1' : db.users.find? (fun x => x.email == req.email) = none := hu1
    have hv : SignUpSerializer_validate db req.username req.email =
        Except.ok () := by
      simp [SignUpSerializer_validate, hu1, hu2]
    have hal : ∀ x ∈ db.users,
        ¬((x.username == req.username && x.email == req.email) = true) := by
      intro x hx
      have hne := List.find?_eq_none.mp hu1' x hx
      simp only [Bool.and_eq_true]
      rintro ⟨-, hxe⟩
      exact hne hxe
    have hfind : (db.users.find? fun x =>
        x.username == req.username && x.email == req.email) = none :=
      List.find?_eq_none.mpr hal
    have hgc : get_or_create db req.username req.email =
        ({ id := freshPk db, username := req.username, email := req.email,
           role := Role.user, is_superuser := false },
          { users := db.users ++
            [{ id := freshPk db, username := req.username, email := req.email,
               role := Role.user, is_superuser := false }] }) := by
      simp [get_or_create, hfind]
    refine ⟨by simp [signup, hf, hv, hgc],
      ⟨{ id := freshPk db, username := req.username, email := req.email,
         role := Role.user, is_superuser := false }, ?_, rfl, rfl⟩⟩
    simp [signup, hf, hv, hgc]

/-- A fresh signup request for the witness: the username and the email
are both unused in `exampleUserDb`. -/
def bobSignUp : SignUpRequest :=
  { username := "bob", email := "bob@example.com" }

/-- Witness for C3: signing "bob" up against the one-user table takes the
create branch, emails the requested address, and appends one account. -/
theorem C3_signup_outcomes_witness :
    (signup exampleUserDb bobSignUp).1 = SignupOutcome.ok "bob@example.com" ∧
      ∃ u : CustomUser,
        (signup exampleUserDb bobSignUp).2.users = exampleUserDb.users ++ [u] ∧
          u.username = "bob" ∧ u.email = "bob@example.com" :=
  (C3_signup_outcomes exampleUserDb bobSignUp (by decide)).2.2 (by decide)
    (by decide)

/-- C9: a signup whose username is already held by an account while the
supplied email is unused is rejected with a validation error keyed on
`username`, and the table is unchanged. -/
theorem C9_signup_username_taken (db : UserDb) (req : SignUpRequest)
    (u : CustomUser) (hf : signupFieldsOk req = true)
    (he : findByEmail db req.email = none)
    (hu : findByUsername db req.username = some u) :
    (signup db req).1 =
        SignupOutcome.badRequest [("username", ERROR_USERNAME)] ∧
      (signup db req).2 = db := by
  have hv : SignUpSerializer_validate db req.username req.email =
      Except.error [("username", ERROR_USERNAME)] := by
    simp [SignUpSerializer_validate, he, hu, optPk]
  simp [signup, hf, hv]

/-- Witness for C9: reusing the username "alice" with a fresh email is
rejected with the username-taken error. -/
theorem C9_signup_username_taken_witness :
    (signup exampleUserDb { username := "alice", email := "new@example.com" }).1 =
        SignupOutcome.badRequest [("username", ERROR_USERNAME)] ∧
      (signup exampleUserDb { username := "alice", email := "new@example.com" }).2 =
        exampleUserDb :=
  C9_signup_username_taken exampleUserDb
    { username := "alice", email := "new@example.com" }
    { id := 1, username := "alice", email := "alice@example.com",
      role := Role.user, is_superuser := false }
    (by decide) (by decide) (by decide)

/-- On nonnegative rationals Python's `int(...)` agrees with the floor. -/
theorem pythonInt_eq_floor (q : ℚ) (h : 0 ≤ q) : pythonInt q = ⌊q⌋ := by
  unfold pythonInt
  rw [Int.tdiv_eq_ediv (Rat.num_nonneg.mpr h) (by positivity), Rat.floor_def]

/-- C5 (counterexample): for a title whose two reviews score 1 and 2, the
annotation is the exact average 3/2, but the serialized `rating` field
is 1, which is not the average. -/
theorem C5_rating_not_exact_average :
    titleRating [1, 2] = some 1 ∧
      avgScore [1, 2] = some ((3 : ℚ) / 2) ∧ ((1 : ℚ) ≠ (3 : ℚ) / 2) := by
  have havg : avgScore [1, 2] = some ((3 : ℚ) / 2) := by
    rw [avgScore]
    norm_num
  have hfloor : ⌊(3 : ℚ) / 2⌋ = 1 := by
    rw [Int.floor_eq_iff]
    norm_num
  refine ⟨?_, havg, by norm_num⟩
  simp only [titleRating, ratingField, havg, Option.map_some']
  rw [pythonInt_eq_floor _ (by norm_num), hfloor]

/-- C5 (amended): the serialized `rating` is `null` for a title without
reviews and otherwise is the integer truncation of the average score:
it satisfies `rating ≤ average < rating + 1`. -/
theorem C5_rating_is_truncated_average (scores : List Int)
    (hpos : ∀ s ∈ scores, 1 ≤ s) :
    (scores = [] → titleRating scores = none) ∧
      (scores ≠ [] → ∃ r : Int, titleRating scores = some r ∧
        (r : ℚ) ≤ (scores.sum : ℚ) / (scores.length : ℚ) ∧
        (scores.sum : ℚ) / (scores.length : ℚ) < (r : ℚ) + 1) := by
  constructor
  · intro h
    subst h
    rfl
  · intro hne
    set q : ℚ := (scores.sum : ℚ) / (scores.length : ℚ) with hq
    have hsum : (0 : Int) ≤ scores.sum :=
      List.sum_nonneg fun s hs => le_trans (by norm_num) (hpos s hs)
    have hqnn : 0 ≤ q := by
      rw [hq]
      apply div_nonneg
      · exact_mod_cast hsum
      · positivity
    have htr : pythonInt q = ⌊q⌋ := pythonInt_eq_floor q hqnn
    have hrf : titleRating scores = some (pythonInt q) := by
      simp [titleRating, avgScore, ratingField, hne, hq]
    refine ⟨pythonInt q, hrf, ?_, ?_⟩
    · rw [htr]
      exact Int.floor_le q
    · rw [htr]
      exact Int.lt_floor_add_one q

/-- Witness for the amended C5 at the concrete score list `[1, 2]`. -/
theorem C5_rating_is_truncated_average_witness :
    ∃ r : Int, titleRating [1, 2] = some r ∧
      (r : ℚ) ≤ (([1, 2] : List Int).sum : ℚ) / (([1, 2] : List Int).length : ℚ) ∧
      (([1, 2] : List Int).sum : ℚ) / (([1, 2] : List Int).length : ℚ) <
        (r : ℚ) + 1 :=
  (C5_rating_is_truncated_average [1, 2] (by decide)).2 (by decide)

/-- C7: deleting a category keeps every title (same count), and each
title keeps its id, name, year, description and genres; only a
`category` reference equal to the deleted key is nulled, any other
value is kept. -/
theorem C7_category_delete_sets_null (db : CatalogDb) (c : Nat) :
    (deleteCategory db c).titles.length = db.titles.length ∧
      ∀ t ∈ db.titles, ∃ t2 ∈ (deleteCategory db c).titles,
        t2.id = t.id ∧ t2.name = t.name ∧ t2.year = t.year ∧
          t2.description = t.description ∧ t2.genre = t.genre ∧
          t2.category = if t.category = some c then none else t.category := by
  constructor
  · simp [deleteCategory]
  · intro t ht
    refine ⟨if t.category = some c then { t with category := none } else t,
      ?_, ?_⟩
    · exact List.mem_map.mpr ⟨t, ht, rfl⟩
    · by_cases h : t.category = some c <;> simp [h]

/-- The single title of the C7 witness catalog. -/
def exampleTitle : TitleRec :=
  { id := 10, name := "Dune", year := 1965, description := "", genre := [2],
    category := some 1 }

/-- A one-category, one-title catalog for the C7 witness. -/
def exampleCatalogDb : CatalogDb :=
  { categories := [{ id := 1, name := "Books", slug := "books" }],
    titles := [exampleTitle] }

/-- Witness for C7: deleting category 1 keeps the title "Dune" with all
its fields and a nulled category reference. -/
theorem C7_category_delete_sets_null_witness :
    (deleteCategory exampleCatalogDb 1).titles.length =
        exampleCatalogDb.titles.length ∧
      ∃ t2 ∈ (deleteCategory exampleCatalogDb 1).titles,
        t2.id = 10 ∧ t2.name = "Dune" ∧ t2.year = 1965 ∧
          t2.description = "" ∧ t2.genre = [2] ∧ t2.category = none := by
  have h := C7_category_delete_sets_null exampleCatalogDb 1
  refine ⟨h.1, ?_⟩
  simpa [exampleTitle] using h.2 exampleTitle (by decide)

/-! ### C10: counterexample rows and the ordering theorems -/

/-- Two reviews of the same title: review 1 is newer (pub_date 5) than
review 2 (pub_date 3). -/
def exampleReviewRows : List ReviewRow :=
  [{ id := 1, title := 1, pub_date := 5 }, { id := 2, title := 1, pub_date := 3 }]

/-- A comment on review 1. -/
def exampleCommentA : CommentRow := { id := 1, review := 1, pub_date := 10 }

/-- A comment on review 2, published at the same instant. -/
def exampleCommentB : CommentRow := { id := 2, review := 2, pub_date := 10 }

/-- C10 (counterexample): with two same-instant comments on those two
reviews, the model-level ordering puts the comment of the older review
(review 2, the larger id) first, while breaking the tie by review id —
as the claim asserts — would put the comment of review 1 first. -/
theorem C10_comment_tie_not_by_review_id :
    listComments exampleReviewRows [exampleCommentA, exampleCommentB] =
        [exampleCommentB, exampleCommentA] ∧
      listCommentsClaimed [exampleCommentA, exampleCommentB] =
        [exampleCommentA, exampleCommentB] ∧
      ([exampleCommentB, exampleCommentA] : List CommentRow) ≠
        [exampleCommentA, exampleCommentB] := by
  refine ⟨by decide, by decide, by decide⟩

/-- Totality of the lexicographic key comparison. -/
theorem keyLe_total : ∀ a b : List Nat, keyLe a b = true ∨ keyLe b a = true := by
  intro a
  induction a with
  | nil => exact fun b => Or.inl rfl
  | cons x xs ih =>
      intro b
      cases b with
      | nil => exact Or.inr rfl
      | cons y ys =>
          simp only [keyLe, Bool.or_eq_true, Bool.and_eq_true, Nat.blt_eq,
            beq_iff_eq]
          rcases Nat.lt_trichotomy x y with h | h | h
          · exact Or.inl (Or.inl h)
          · rcases ih ys with h2 | h2
            · exact Or.inl (Or.inr ⟨h, h2⟩)
            · exact Or.inr (Or.inr ⟨h.symm, h2⟩)
          · exact Or.inr (Or.inl h)

/-- Transitivity of the lexicographic key comparison. -/
theorem keyLe_trans : ∀ a b c : List Nat,
    keyLe a b = true → keyLe b c = true → keyLe a c = true := by
  intro a
  induction a with
  | nil => intro b c _ _; rfl
  | cons x xs ih =>
      intro b c hab hbc
      cases b with
      | nil => simp [keyLe] at hab
      | cons y ys =>
          cases c with
          | nil => simp [keyLe] at hbc
          | cons z zs =>
              simp only [keyLe, Bool.or_eq_true, Bool.and_eq_true, Nat.blt_eq,
                beq_iff_eq] at hab hbc ⊢
              rcases hab with h1 | ⟨h1, h1'⟩
              · rcases hbc with h2 | ⟨h2, h2'⟩
                · exact Or.inl (by omega)
                · exact Or.inl (by omega)
              · rcases hbc with h2 | ⟨h2, h2'⟩
                · exact Or.inl (by omega)
                · exact Or.inr ⟨by omega, ih ys zs h1' h2'⟩

instance : IsTotal ReviewRow reviewOrdLe :=
  ⟨fun _ _ => keyLe_total _ _⟩

instance : IsTrans ReviewRow reviewOrdLe :=
  ⟨fun _ _ _ => keyLe_trans _ _ _⟩

instance (rs : List ReviewRow) : IsTotal CommentRow (commentOrdLe rs) :=
  ⟨fun _ _ => keyLe_total _ _⟩

instance (rs : List ReviewRow) : IsTrans CommentRow (commentOrdLe rs) :=
  ⟨fun _ _ _ => keyLe_trans _ _ _⟩

/-- C10 (amended): review listings are a permutation of the table sorted
by `(pub_date, title id)`, and comment listings are a permutation of
the table sorted by `(pub_date, review pub_date, review title id)` —
the referenced review's own default ordering, substituted by Django for
the `review` foreign key. -/
theorem C10_default_ordering (rs : List ReviewRow) (cs : List CommentRow) :
    (listReviews rs).Perm rs ∧ List.Sorted reviewOrdLe (listReviews rs) ∧
      (listComments rs cs).Perm cs ∧
      List.Sorted (commentOrdLe rs) (listComments rs cs) :=
  ⟨List.perm_insertionSort _ _, List.sorted_insertionSort _ _,
    List.perm_insertionSort _ _, List.sorted_insertionSort _ _⟩

end ApiYamdb
